import Mathlib

/-!
Verification of the error-reporting subsystem of edx-xml-clean:
the diagnostic catalog of `edx_xml_clean/loader/xml_exceptions.py`
and the reporter `report_errors` of `reporting/errors.py`.

Diagnostic construction is embedded as a total function from a kind, a
filename and a keyword-argument bag to `Except String CourseError`:
a Python `KeyError`/`AttributeError` raised in `__init__` becomes
`Except.error`, a successful construction becomes `Except.ok`.
Printing is embedded as the list of emitted lines.
-/

namespace EdxXmlClean

/-- Modelled from the spec: the severity enumeration `ErrorLevel` lives in
`edx_xml_clean/exceptions.py`, which is not part of the supplied sources;
the spec fixes it as the closed set ERROR or WARNING. -/
inductive ErrorLevel where
  | ERROR
  | WARNING
deriving DecidableEq, Repr

/-- Modelled from the spec: the rendering of a severity in the report line
(the spec's scenario line starts with the text `ERROR`). -/
def ErrorLevel.levelName : ErrorLevel → String
  | .ERROR => "ERROR"
  | .WARNING => "WARNING"

/-- A Python value passed as a keyword argument: either `None` or a string.
The catalog only ever receives strings or `None` for its fields. -/
inductive PyVal where
  | pynone
  | pystr (s : String)
deriving DecidableEq, Repr

/-- Python truthiness of a field value: `None` and `""` are falsy. -/
def PyVal.truthy : PyVal → Bool
  | .pynone => false
  | .pystr s => s != ""

/-- Python f-string interpolation of a field value (`None` renders as the
text `None`, a string renders as itself). -/
def PyVal.interp : PyVal → String
  | .pynone => "None"
  | .pystr s => s

/-- The keyword-argument bag `**kwargs`; Python forbids duplicate keyword
arguments, so an association list with first-match lookup is faithful. -/
abbrev Kwargs := List (String × PyVal)

/-- Lookup of `kwargs[key]` as an `Option`. -/
def lookupKwarg : Kwargs → String → Option PyVal
  | [], _ => none
  | (k, v) :: rest, key => if k = key then some v else lookupKwarg rest key

/-- `kwargs[key]` as performed by each `__init__`: a missing key raises
`KeyError`, embedded as `Except.error`. -/
def getKwarg (kwargs : Kwargs) (key : String) : Except String PyVal :=
  match lookupKwarg kwargs key with
  | some v => Except.ok v
  | none => Except.error (String.append "KeyError: " key)

/-- Python whitespace characters removed by `str.strip()`. -/
def isPySpace (c : Char) : Bool :=
  c == ' ' || c == '\t' || c == '\n' || c == '\r' || c == '\x0b' || c == '\x0c'

/-- Python `s.strip()`: drop leading and trailing whitespace. -/
def pyStrip (s : String) : String :=
  String.mk (((s.data.dropWhile isPySpace).reverse.dropWhile isPySpace).reverse)

/-- Python `s[:10]`: the first ten characters of `s`. -/
def pySlice10 (s : String) : String :=
  String.mk (s.data.take 10)

/-- The fifteen diagnostic kinds of `xml_exceptions.py`, one per
`CourseError` subclass, in source order. -/
inductive Kind where
  | CourseXMLDoesNotExist
  | InvalidXML
  | InvalidHTML
  | CourseXMLName
  | TagMismatch
  | EmptyTag
  | ExtraURLName
  | InvalidPointer
  | FileDoesNotExist
  | SelfPointer
  | UnexpectedTag
  | PossiblePointer
  | UnexpectedContent
  | NonFlatURLName
  | NonFlatFilename
deriving DecidableEq, Repr, Fintype

/-- The `_level` class attribute of each `CourseError` subclass. -/
def Kind.classLevel : Kind → ErrorLevel
  | .CourseXMLDoesNotExist => .ERROR
  | .InvalidXML => .ERROR
  | .InvalidHTML => .ERROR
  | .CourseXMLName => .WARNING
  | .TagMismatch => .ERROR
  | .EmptyTag => .WARNING
  | .ExtraURLName => .ERROR
  | .InvalidPointer => .ERROR
  | .FileDoesNotExist => .ERROR
  | .SelfPointer => .ERROR
  | .UnexpectedTag => .ERROR
  | .PossiblePointer => .WARNING
  | .UnexpectedContent => .ERROR
  | .NonFlatURLName => .WARNING
  | .NonFlatFilename => .WARNING

/-- Modelled from the spec: the `name` attribute of a diagnostic is "the type
name of the kind" (the Python class name), rendered in the report line. -/
def Kind.kindName : Kind → String
  | .CourseXMLDoesNotExist => "CourseXMLDoesNotExist"
  | .InvalidXML => "InvalidXML"
  | .InvalidHTML => "InvalidHTML"
  | .CourseXMLName => "CourseXMLName"
  | .TagMismatch => "TagMismatch"
  | .EmptyTag => "EmptyTag"
  | .ExtraURLName => "ExtraURLName"
  | .InvalidPointer => "InvalidPointer"
  | .FileDoesNotExist => "FileDoesNotExist"
  | .SelfPointer => "SelfPointer"
  | .UnexpectedTag => "UnexpectedTag"
  | .PossiblePointer => "PossiblePointer"
  | .UnexpectedContent => "UnexpectedContent"
  | .NonFlatURLName => "NonFlatURLName"
  | .NonFlatFilename => "NonFlatFilename"

/-- A constructed diagnostic. `kind` and `filename` are set by the base-class
`__init__`; `level` is copied from the kind's `_level` at construction
(modelled from the spec: "severity: copied from the kind at construction");
`description` is the fully rendered message set by the subclass `__init__`. -/
structure CourseError where
  kind : Kind
  level : ErrorLevel
  filename : String
  description : String
deriving DecidableEq, Repr

/-- Modelled from the spec: the `name` attribute used by the reporter. -/
def CourseError.name (e : CourseError) : String :=
  e.kind.kindName

/-- The base-class construction: record the kind, copy its `_level`,
store the filename and the rendered description. -/
def mkCourseError (k : Kind) (filename description : String) : CourseError :=
  { kind := k, level := k.classLevel, filename := filename, description := description }

/-- Construction of a diagnostic of kind `k`: the `__init__` bodies of
`xml_exceptions.py`, with kwargs looked up in Python evaluation order. -/
def construct (k : Kind) (filename : String) (kwargs : Kwargs) :
    Except String CourseError :=
  match k with
  | .CourseXMLDoesNotExist =>
      Except.ok (mkCourseError .CourseXMLDoesNotExist filename
        ("The file '" ++ filename ++ "' does not exist."))
  | .InvalidXML => do
      let err ← getKwarg kwargs "error"
      -- Python stores the kwarg object itself; it is only ever observed via
      -- f-string interpolation in the reporter, so `interp` is faithful.
      Except.ok (mkCourseError .InvalidXML filename err.interp)
  | .InvalidHTML => do
      let err ← getKwarg kwargs "error"
      Except.ok (mkCourseError .InvalidHTML filename err.interp)
  | .CourseXMLName =>
      Except.ok (mkCourseError .CourseXMLName filename
        ("The course file, " ++ filename ++ ", is not named course.xml"))
  | .TagMismatch => do
      let tag1 ← getKwarg kwargs "tag1"
      let tag2 ← getKwarg kwargs "tag2"
      Except.ok (mkCourseError .TagMismatch filename
        ("A file is of type <" ++ tag1.interp ++ "> but opens with a <" ++
          tag2.interp ++ "> tag"))
  | .EmptyTag => do
      let u ← getKwarg kwargs "url_name"
      if u.truthy then
        let t ← getKwarg kwargs "tag"
        Except.ok (mkCourseError .EmptyTag filename
          ("The <" ++ t.interp ++ "> tag with url_name '" ++ u.interp ++
            "' is unexpectedly empty"))
      else
        let t ← getKwarg kwargs "tag"
        Except.ok (mkCourseError .EmptyTag filename
          ("A <" ++ t.interp ++ "> tag with no url_name is unexpectedly empty"))
  | .ExtraURLName => do
      let t ← getKwarg kwargs "tag"
      Except.ok (mkCourseError .ExtraURLName filename
        ("The opening <" ++ t.interp ++ "> tag shouldn't have a url_name attribute"))
  | .InvalidPointer => do
      let t ← getKwarg kwargs "tag"
      let u ← getKwarg kwargs "url_name"
      Except.ok (mkCourseError .InvalidPointer filename
        ("The <" ++ t.interp ++ "> tag with url_name '" ++ u.interp ++
          "' looks like it is an invalid pointer tag"))
  | .FileDoesNotExist => do
      let t ← getKwarg kwargs "tag"
      let u ← getKwarg kwargs "url_name"
      let nf ← getKwarg kwargs "new_file"
      Except.ok (mkCourseError .FileDoesNotExist filename
        ("The <" ++ t.interp ++ "> tag with url_name " ++ u.interp ++
          " points to the file " ++ nf.interp ++ " that does not exist"))
  | .SelfPointer => do
      let t ← getKwarg kwargs "tag"
      let u ← getKwarg kwargs "url_name"
      Except.ok (mkCourseError .SelfPointer filename
        ("The tag <" ++ t.interp ++ "> with url_name " ++ u.interp ++
          " appears to be pointing to itself"))
  | .UnexpectedTag => do
      let u ← getKwarg kwargs "url_name"
      if u.truthy then
        let t ← getKwarg kwargs "tag"
        let p ← getKwarg kwargs "parent"
        Except.ok (mkCourseError .UnexpectedTag filename
          ("A <" ++ t.interp ++ "> tag was unexpectedly found inside the <" ++
            p.interp ++ "> tag with url_name " ++ u.interp))
      else
        let t ← getKwarg kwargs "tag"
        let p ← getKwarg kwargs "parent"
        Except.ok (mkCourseError .UnexpectedTag filename
          ("A <" ++ t.interp ++ "> tag was unexpectedly found inside a <" ++
            p.interp ++ "> tag with no url_name"))
  | .PossiblePointer => do
      let t ← getKwarg kwargs "tag"
      let u ← getKwarg kwargs "url_name"
      let nf ← getKwarg kwargs "new_file"
      Except.ok (mkCourseError .PossiblePointer filename
        ("The <" ++ t.interp ++ "> tag with url_name '" ++ u.interp ++
          "' is not a pointer, but a file that it could point to exists (" ++
          nf.interp ++ ")"))
  | .UnexpectedContent => do
      let u ← getKwarg kwargs "url_name"
      let t ← getKwarg kwargs "tag"
      let head :=
        if u.truthy then
          "The <" ++ t.interp ++ "> tag with url_name '" ++ u.interp ++ "'"
        else
          "A <" ++ t.interp ++ "> tag with no url_name"
      let tx ← getKwarg kwargs "text"
      match tx with
      | .pynone =>
          -- `kwargs['text'].strip()` on `None` raises AttributeError.
          Except.error "AttributeError: NoneType has no attribute strip"
      | .pystr s =>
          Except.ok (mkCourseError .UnexpectedContent filename
            (head ++ " should not contain any text (" ++
              pySlice10 (pyStrip s) ++ "...)"))
  | .NonFlatURLName => do
      let t ← getKwarg kwargs "tag"
      let u ← getKwarg kwargs "url_name"
      Except.ok (mkCourseError .NonFlatURLName filename
        ("The <" ++ t.interp ++ "> tag with url_name " ++ u.interp ++
          " uses obsolete colon notation in the url_name to point to a subdirectory"))
  | .NonFlatFilename => do
      let u ← getKwarg kwargs "url_name"
      if u.truthy then
        Except.ok (mkCourseError .NonFlatFilename filename
          ("The <html> tag with url_name " ++ u.interp ++
            " uses obsolete colon notation to point to a subdirectory for filename " ++
            filename))
      else
        Except.ok (mkCourseError .NonFlatFilename filename
          ("An <html> tag with no url_name uses obsolete colon notation to point to a subdirectory for filename " ++
            filename))

/-- The required keyword arguments of each kind, as documented by the
`Expects kwargs` docstrings of `xml_exceptions.py`. -/
def requiredFields : Kind → List String
  | .CourseXMLDoesNotExist => []
  | .InvalidXML => ["error"]
  | .InvalidHTML => ["error"]
  | .CourseXMLName => []
  | .TagMismatch => ["tag1", "tag2"]
  | .EmptyTag => ["tag", "url_name"]
  | .ExtraURLName => ["tag"]
  | .InvalidPointer => ["tag", "url_name"]
  | .FileDoesNotExist => ["tag", "url_name", "new_file"]
  | .SelfPointer => ["tag", "url_name"]
  | .UnexpectedTag => ["tag", "parent", "url_name"]
  | .PossiblePointer => ["tag", "url_name", "new_file"]
  | .UnexpectedContent => ["tag", "url_name", "text"]
  | .NonFlatURLName => ["tag", "url_name"]
  | .NonFlatFilename => ["url_name"]

/-- Modelled from the spec: the error store of `edx_xml_clean/exceptions.py`
(not among the supplied sources) is "an ordered, append-only sequence of
Diagnostic, insertion order = raise order", exposed as `.errors`. -/
structure ErrorStore where
  errors : List CourseError
deriving DecidableEq, Repr

/-- The fixed message printed for an empty store
(`reporting/errors.py`, line 14). -/
def noErrorsMessage : String := "No errors found!"

/-- One printed report line
(`reporting/errors.py`, line 12). -/
def formatError (e : CourseError) : String :=
  e.level.levelName ++ " (" ++ e.filename ++ "): " ++ e.description ++
    " (" ++ e.name ++ ")"

/-- `report_errors` of `reporting/errors.py`: returns the store as left by
the call (the function only reads it) together with the printed lines. -/
def report_errors (store : ErrorStore) : ErrorStore × List String :=
  if store.errors ≠ [] then
    (store, store.errors.map formatError)
  else
    (store, [noErrorsMessage])

/-! Helper notions used by the theorem statements. -/

/-- `pat` occurs as a contiguous substring of `s`. -/
def strContains (s pat : String) : Prop :=
  ∃ l r : List Char, s.data = l ++ (pat.data ++ r)

/-- `s` ends with the string `pat`. -/
def strEndsWith (s pat : String) : Prop :=
  ∃ l : List Char, s.data = l ++ pat.data

/-- A construction succeeded and its description contains `pat`. -/
def descContains (x : Except String CourseError) (pat : String) : Prop :=
  ∃ e, x = Except.ok e ∧ strContains e.description pat

/-! Helper lemmas. -/

theorem strContains_of_parts (s pre mid post : String)
    (h : s = pre ++ (mid ++ post)) : strContains s mid :=
  ⟨pre.data, post.data, by simp [h, String.data_append]⟩

theorem strEndsWith_of_parts (s pre pat : String)
    (h : s = pre ++ pat) : strEndsWith s pat :=
  ⟨pre.data, by simp [h, String.data_append]⟩

theorem eq_empty_of_data_eq_nil {a : String} (h : a.data = []) : a = "" := by
  cases a
  simp_all

theorem append_ne_empty_left (a b : String) (h : a ≠ "") : a ++ b ≠ "" := by
  intro he
  apply h
  have hd := congrArg String.data he
  rw [String.data_append] at hd
  exact eq_empty_of_data_eq_nil (List.append_eq_nil.mp hd).1

theorem errBindLeft {α β : Type} (x : Except String α) (f : α → Except String β)
    (h : ∃ m, x = Except.error m) : ∃ m, (x >>= f) = Except.error m := by
  rcases h with ⟨m, hm⟩
  exact ⟨m, by simp [hm, Bind.bind, Except.bind]⟩

theorem errBind {α β : Type} (x : Except String α) (f : α → Except String β)
    (h : ∀ a, ∃ m, f a = Except.error m) : ∃ m, (x >>= f) = Except.error m := by
  cases x with
  | error m => exact ⟨m, rfl⟩
  | ok a => simpa [Bind.bind, Except.bind] using h a

theorem exceptBindOk {α β : Type} {x : Except String α} {f : α → Except String β}
    {b : β} (h : (x >>= f) = Except.ok b) : ∃ a, x = Except.ok a ∧ f a = Except.ok b := by
  cases x with
  | error m => simp [Bind.bind, Except.bind] at h
  | ok a => exact ⟨a, rfl, by simpa [Bind.bind, Except.bind] using h⟩

theorem getKwarg_missing {kwargs : Kwargs} {key : String}
    (h : lookupKwarg kwargs key = none) :
    ∃ m, getKwarg kwargs key = Except.error m :=
  ⟨String.append "KeyError: " key, by simp [getKwarg, h]⟩

/-- All required keyword arguments of kind `k` are supplied as strings. -/
def wellFormedKwargs (k : Kind) (kwargs : Kwargs) : Prop :=
  ∀ f ∈ requiredFields k, ∃ s : String, lookupKwarg kwargs f = some (PyVal.pystr s)

theorem construct_ok_ne_empty_aux (k : Kind) (fn desc : String) (kwargs : Kwargs)
    (hc : construct k fn kwargs = Except.ok (mkCourseError k fn desc))
    (hne : desc ≠ "") :
    ∃ e, construct k fn kwargs = Except.ok e ∧
      (e.description = "" → (k = Kind.InvalidXML ∨ k = Kind.InvalidHTML) ∧
        lookupKwarg kwargs "error" = some (PyVal.pystr "")) :=
  ⟨_, hc, fun hd => absurd hd hne⟩

theorem level_kind_of_ok {k : Kind} {fn desc : String} {e : CourseError}
    (h : (Except.ok (mkCourseError k fn desc) : Except String CourseError) = Except.ok e) :
    e.level = k.classLevel ∧ e.kind = k := by
  injection h with h
  subst h
  exact ⟨rfl, rfl⟩

/-! The claims. -/

/-- C1: for every store containing at least one diagnostic, `report_errors`
emits exactly one line per diagnostic, in insertion order, each formatted as
`{severity} ({filename}): {description} ({kind_name})` (which is
`formatError`); no reordering, deduplication or filtering. -/
theorem report_renders_each_error_in_order (store : ErrorStore)
    (h : store.errors ≠ []) :
    (report_errors store).2.length = store.errors.length ∧
    ∀ i : Nat, (report_errors store).2[i]? = (store.errors[i]?).map formatError := by
  constructor
  · simp [report_errors, h]
  · intro i
    simp [report_errors, h, List.getElem?_map]

theorem report_renders_each_error_in_order_witness :
    ({ errors := [mkCourseError Kind.CourseXMLName "a.xml" "d1",
                  mkCourseError Kind.InvalidXML "b.xml" "d2"] } : ErrorStore).errors ≠ [] ∧
    ((report_errors { errors := [mkCourseError Kind.CourseXMLName "a.xml" "d1",
                                 mkCourseError Kind.InvalidXML "b.xml" "d2"] }).2.length =
      ({ errors := [mkCourseError Kind.CourseXMLName "a.xml" "d1",
                    mkCourseError Kind.InvalidXML "b.xml" "d2"] } : ErrorStore).errors.length ∧
     ∀ i : Nat,
      (report_errors { errors := [mkCourseError Kind.CourseXMLName "a.xml" "d1",
                                  mkCourseError Kind.InvalidXML "b.xml" "d2"] }).2[i]? =
        (({ errors := [mkCourseError Kind.CourseXMLName "a.xml" "d1",
                       mkCourseError Kind.InvalidXML "b.xml" "d2"] } : ErrorStore).errors[i]?).map
          formatError) :=
  ⟨by decide, report_renders_each_error_in_order _ (by decide)⟩

/-- C2: for a store containing zero diagnostics, `report_errors` emits
exactly one line, the fixed no-errors message, and nothing else. -/
theorem report_empty_store_single_line :
    (report_errors { errors := [] }).2.length = 1 ∧
    (report_errors { errors := [] }).2 = [noErrorsMessage] := by
  exact ⟨rfl, rfl⟩

/-- C9: the fixed message printed for an empty store is exactly the text
`No errors found!`. -/
theorem no_errors_message_text :
    (report_errors { errors := [] }).2 = ["No errors found!"] := rfl

/-- C7: constructing a `CourseXMLDoesNotExist` diagnostic with filename
`course.xml` and reporting a store holding just that diagnostic emits exactly
the single expected line. -/
theorem course_xml_does_not_exist_scenario :
    (construct Kind.CourseXMLDoesNotExist "course.xml" []).map
      (fun e => (report_errors { errors := [e] }).2) =
    Except.ok
      ["ERROR (course.xml): The file 'course.xml' does not exist. (CourseXMLDoesNotExist)"] := rfl

/-- C3: for EmptyTag, UnexpectedTag, UnexpectedContent and NonFlatFilename,
a falsy `url_name` yields the alternate phrasing containing
`with no url_name`, while a non-empty `url_name` yields the phrasing that
includes the url_name value (for EmptyTag, the quoted form). -/
theorem url_name_phrasing (fn : String) (t p u0 : PyVal) (us sx : String)
    (hu0 : u0.truthy = false) (hus : us ≠ "") :
    descContains (construct Kind.EmptyTag fn
      [("tag", t), ("url_name", u0)]) "with no url_name" ∧
    descContains (construct Kind.UnexpectedTag fn
      [("tag", t), ("parent", p), ("url_name", u0)]) "with no url_name" ∧
    descContains (construct Kind.UnexpectedContent fn
      [("tag", t), ("url_name", u0), ("text", PyVal.pystr sx)]) "with no url_name" ∧
    descContains (construct Kind.NonFlatFilename fn
      [("url_name", u0)]) "with no url_name" ∧
    descContains (construct Kind.EmptyTag fn
      [("tag", t), ("url_name", PyVal.pystr us)]) ("'" ++ us ++ "'") ∧
    descContains (construct Kind.UnexpectedTag fn
      [("tag", t), ("parent", p), ("url_name", PyVal.pystr us)]) us ∧
    descContains (construct Kind.UnexpectedContent fn
      [("tag", t), ("url_name", PyVal.pystr us), ("text", PyVal.pystr sx)])
      ("'" ++ us ++ "'") ∧
    descContains (construct Kind.NonFlatFilename fn
      [("url_name", PyVal.pystr us)]) us := by
  refine ⟨?_, ?_, ?_, ?_, ?_, ?_, ?_, ?_⟩
  · refine ⟨mkCourseError Kind.EmptyTag fn
      ("A <" ++ t.interp ++ "> tag with no url_name is unexpectedly empty"), ?_, ?_⟩
    · simp [construct, getKwarg, lookupKwarg, hu0, Bind.bind, Except.bind]
    · exact strContains_of_parts _ ("A <" ++ t.interp ++ "> tag ") _
        " is unexpectedly empty" (by
        apply String.ext
        simp [mkCourseError, String.data_append, List.append_assoc])
  · refine ⟨mkCourseError Kind.UnexpectedTag fn
      ("A <" ++ t.interp ++ "> tag was unexpectedly found inside a <" ++
        p.interp ++ "> tag with no url_name"), ?_, ?_⟩
    · simp [construct, getKwarg, lookupKwarg, hu0, Bind.bind, Except.bind]
    · exact strContains_of_parts _
        ("A <" ++ t.interp ++ "> tag was unexpectedly found inside a <" ++
          p.interp ++ "> tag ") _ "" (by
        apply String.ext
        simp [mkCourseError, String.data_append, List.append_assoc])
  · refine ⟨mkCourseError Kind.UnexpectedContent fn
      (("A <" ++ t.interp ++ "> tag with no url_name") ++
        " should not contain any text (" ++ pySlice10 (pyStrip sx) ++ "...)"), ?_, ?_⟩
    · simp [construct, getKwarg, lookupKwarg, hu0, Bind.bind, Except.bind]
    · exact strContains_of_parts _ ("A <" ++ t.interp ++ "> tag ") _
        (" should not contain any text (" ++ pySlice10 (pyStrip sx) ++ "...)") (by
        apply String.ext
        simp [mkCourseError, String.data_append, List.append_assoc])
  · refine ⟨mkCourseError Kind.NonFlatFilename fn
      ("An <html> tag with no url_name uses obsolete colon notation to point to a subdirectory for filename " ++
        fn), ?_, ?_⟩
    · simp [construct, getKwarg, lookupKwarg, hu0, Bind.bind, Except.bind]
    · exact strContains_of_parts _ "An <html> tag " _
        (" uses obsolete colon notation to point to a subdirectory for filename " ++ fn) (by
        apply String.ext
        simp [mkCourseError, String.data_append, List.append_assoc])
  · refine ⟨mkCourseError Kind.EmptyTag fn
      ("The <" ++ t.interp ++ "> tag with url_name '" ++ us ++
        "' is unexpectedly empty"), ?_, ?_⟩
    · simp [construct, getKwarg, lookupKwarg, PyVal.truthy, hus, Bind.bind,
        Except.bind, PyVal.interp]
    · exact strContains_of_parts _ ("The <" ++ t.interp ++ "> tag with url_name ") _
        " is unexpectedly empty" (by
        apply String.ext
        simp [mkCourseError, String.data_append, List.append_assoc])
  · refine ⟨mkCourseError Kind.UnexpectedTag fn
      ("A <" ++ t.interp ++ "> tag was unexpectedly found inside the <" ++
        p.interp ++ "> tag with url_name " ++ us), ?_, ?_⟩
    · simp [construct, getKwarg, lookupKwarg, PyVal.truthy, hus, Bind.bind,
        Except.bind, PyVal.interp]
    · exact strContains_of_parts _
        ("A <" ++ t.interp ++ "> tag was unexpectedly found inside the <" ++
          p.interp ++ "> tag with url_name ") _ "" (by
        apply String.ext
        simp [mkCourseError, String.data_append, List.append_assoc])
  · refine ⟨mkCourseError Kind.UnexpectedContent fn
      (("The <" ++ t.interp ++ "> tag with url_name '" ++ us ++ "'") ++
        " should not contain any text (" ++ pySlice10 (pyStrip sx) ++ "...)"), ?_, ?_⟩
    · simp [construct, getKwarg, lookupKwarg, PyVal.truthy, hus, Bind.bind,
        Except.bind, PyVal.interp]
    · exact strContains_of_parts _ ("The <" ++ t.interp ++ "> tag with url_name ") _
        (" should not contain any text (" ++ pySlice10 (pyStrip sx) ++ "...)") (by
        apply String.ext
        simp [mkCourseError, String.data_append, List.append_assoc])
  · refine ⟨mkCourseError Kind.NonFlatFilename fn
      ("The <html> tag with url_name " ++ us ++
        " uses obsolete colon notation to point to a subdirectory for filename " ++
        fn), ?_, ?_⟩
    · simp [construct, getKwarg, lookupKwarg, PyVal.truthy, hus, Bind.bind,
        Except.bind, PyVal.interp]
    · exact strContains_of_parts _ "The <html> tag with url_name " _
        (" uses obsolete colon notation to point to a subdirectory for filename " ++ fn) (by
        apply String.ext
        simp [mkCourseError, String.data_append, List.append_assoc])

theorem url_name_phrasing_witness :
    (PyVal.pystr "").truthy = false ∧ ("intro" : String) ≠ "" ∧
    (descContains (construct Kind.EmptyTag "f.xml"
      [("tag", PyVal.pystr "chapter"), ("url_name", PyVal.pystr "")]) "with no url_name" ∧
     descContains (construct Kind.UnexpectedTag "f.xml"
      [("tag", PyVal.pystr "chapter"), ("parent", PyVal.pystr "course"),
       ("url_name", PyVal.pystr "")]) "with no url_name" ∧
     descContains (construct Kind.UnexpectedContent "f.xml"
      [("tag", PyVal.pystr "chapter"), ("url_name", PyVal.pystr ""),
       ("text", PyVal.pystr "hello")]) "with no url_name" ∧
     descContains (construct Kind.NonFlatFilename "f.xml"
      [("url_name", PyVal.pystr "")]) "with no url_name" ∧
     descContains (construct Kind.EmptyTag "f.xml"
      [("tag", PyVal.pystr "chapter"), ("url_name", PyVal.pystr "intro")])
      ("'" ++ "intro" ++ "'") ∧
     descContains (construct Kind.UnexpectedTag "f.xml"
      [("tag", PyVal.pystr "chapter"), ("parent", PyVal.pystr "course"),
       ("url_name", PyVal.pystr "intro")]) "intro" ∧
     descContains (construct Kind.UnexpectedContent "f.xml"
      [("tag", PyVal.pystr "chapter"), ("url_name", PyVal.pystr "intro"),
       ("text", PyVal.pystr "hello")]) ("'" ++ "intro" ++ "'") ∧
     descContains (construct Kind.NonFlatFilename "f.xml"
      [("url_name", PyVal.pystr "intro")]) "intro") :=
  ⟨by decide, by decide,
    url_name_phrasing "f.xml" (PyVal.pystr "chapter") (PyVal.pystr "course")
      (PyVal.pystr "") "intro" "hello" (by decide) (by decide)⟩

/-- C4: every UnexpectedContent description ends with a parenthesized excerpt
of the text field, stripped and cut to ten characters with `...` appended;
in particular the supplied 32-character text yields `(This is a ...)`. -/
theorem unexpected_content_excerpt (fn : String) (t u : PyVal) (s : String) :
    (∃ e, construct Kind.UnexpectedContent fn
        [("tag", t), ("url_name", u), ("text", PyVal.pystr s)] = Except.ok e ∧
      strEndsWith e.description ("(" ++ pySlice10 (pyStrip s) ++ "...)")) ∧
    ("(" : String) ++ pySlice10 (pyStrip "This is a long paragraph of text") ++ "...)" =
      "(This is a ...)" := by
  constructor
  · cases hu : u.truthy with
    | false =>
        refine ⟨mkCourseError Kind.UnexpectedContent fn
          (("A <" ++ t.interp ++ "> tag with no url_name") ++
            " should not contain any text (" ++ pySlice10 (pyStrip s) ++ "...)"), ?_, ?_⟩
        · simp [construct, getKwarg, lookupKwarg, hu, Bind.bind, Except.bind]
        · exact strEndsWith_of_parts _
            (("A <" ++ t.interp ++ "> tag with no url_name") ++
              " should not contain any text ") _ (by
            apply String.ext
            simp [mkCourseError, String.data_append, List.append_assoc])
    | true =>
        refine ⟨mkCourseError Kind.UnexpectedContent fn
          (("The <" ++ t.interp ++ "> tag with url_name '" ++ u.interp ++ "'") ++
            " should not contain any text (" ++ pySlice10 (pyStrip s) ++ "...)"), ?_, ?_⟩
        · simp [construct, getKwarg, lookupKwarg, hu, Bind.bind, Except.bind]
        · exact strEndsWith_of_parts _
            (("The <" ++ t.interp ++ "> tag with url_name '" ++ u.interp ++ "'") ++
              " should not contain any text ") _ (by
            apply String.ext
            simp [mkCourseError, String.data_append, List.append_assoc])
  · rfl

/-- C8: `report_errors` does not mutate the store, and calling it again on
the store it returns produces byte-identical output. -/
theorem report_idempotent (store : ErrorStore) :
    (report_errors store).1 = store ∧
    (report_errors ((report_errors store).1)).2 = (report_errors store).2 := by
  have h1 : (report_errors store).1 = store := by
    unfold report_errors
    split <;> rfl
  exact ⟨h1, by rw [h1]⟩

/-- C5 counterexample: supplying every required field of InvalidXML
(namely `error`, here the empty string) constructs successfully but yields
an empty description, against the claimed non-emptiness. -/
theorem wellformed_empty_description_counterexample :
    construct Kind.InvalidXML "course.xml" [("error", PyVal.pystr "")] =
      Except.ok (mkCourseError Kind.InvalidXML "course.xml" "") ∧
    (mkCourseError Kind.InvalidXML "course.xml" "").description = "" :=
  ⟨rfl, rfl⟩

/-- C5 amended: for every kind K and every field set supplying all required
fields of K as strings, construction never raises; the description is
non-empty except when K is InvalidXML or InvalidHTML and the supplied
`error` text is empty. -/
theorem construct_wellformed_total (k : Kind) (fn : String) (kwargs : Kwargs)
    (h : wellFormedKwargs k kwargs) :
    ∃ e, construct k fn kwargs = Except.ok e ∧
      (e.description = "" → (k = Kind.InvalidXML ∨ k = Kind.InvalidHTML) ∧
        lookupKwarg kwargs "error" = some (PyVal.pystr "")) := by
  cases k with
  | CourseXMLDoesNotExist =>
      exact construct_ok_ne_empty_aux Kind.CourseXMLDoesNotExist fn
        ("The file '" ++ fn ++ "' does not exist.") kwargs
        (by simp [construct])
        (by (repeat apply append_ne_empty_left); decide)
  | InvalidXML =>
      obtain ⟨s1, h1⟩ := h "error" (by simp [requiredFields])
      refine ⟨mkCourseError Kind.InvalidXML fn s1, ?_, ?_⟩
      · simp [construct, getKwarg, h1, Bind.bind, Except.bind, PyVal.interp]
      · intro hd
        have hs : s1 = "" := hd
        exact ⟨Or.inl rfl, by rw [h1, hs]⟩
  | InvalidHTML =>
      obtain ⟨s1, h1⟩ := h "error" (by simp [requiredFields])
      refine ⟨mkCourseError Kind.InvalidHTML fn s1, ?_, ?_⟩
      · simp [construct, getKwarg, h1, Bind.bind, Except.bind, PyVal.interp]
      · intro hd
        have hs : s1 = "" := hd
        exact ⟨Or.inr rfl, by rw [h1, hs]⟩
  | CourseXMLName =>
      exact construct_ok_ne_empty_aux Kind.CourseXMLName fn
        ("The course file, " ++ fn ++ ", is not named course.xml") kwargs
        (by simp [construct])
        (by (repeat apply append_ne_empty_left); decide)
  | TagMismatch =>
      obtain ⟨s1, h1⟩ := h "tag1" (by simp [requiredFields])
      obtain ⟨s2, h2⟩ := h "tag2" (by simp [requiredFields])
      exact construct_ok_ne_empty_aux Kind.TagMismatch fn
        ("A file is of type <" ++ s1 ++ "> but opens with a <" ++ s2 ++ "> tag") kwargs
        (by simp [construct, getKwarg, h1, h2, Bind.bind, Except.bind, PyVal.interp])
        (by (repeat apply append_ne_empty_left); decide)
  | EmptyTag =>
      obtain ⟨st, ht⟩ := h "tag" (by simp [requiredFields])
      obtain ⟨su, hu⟩ := h "url_name" (by simp [requiredFields])
      by_cases hse : su = ""
      · exact construct_ok_ne_empty_aux Kind.EmptyTag fn
          ("A <" ++ st ++ "> tag with no url_name is unexpectedly empty") kwargs
          (by simp [construct, getKwarg, ht, hu, hse, PyVal.truthy, Bind.bind,
            Except.bind, PyVal.interp])
          (by (repeat apply append_ne_empty_left); decide)
      · exact construct_ok_ne_empty_aux Kind.EmptyTag fn
          ("The <" ++ st ++ "> tag with url_name '" ++ su ++ "' is unexpectedly empty") kwargs
          (by simp [construct, getKwarg, ht, hu, hse, PyVal.truthy, Bind.bind,
            Except.bind, PyVal.interp])
          (by (repeat apply append_ne_empty_left); decide)
  | ExtraURLName =>
      obtain ⟨st, ht⟩ := h "tag" (by simp [requiredFields])
      exact construct_ok_ne_empty_aux Kind.ExtraURLName fn
        ("The opening <" ++ st ++ "> tag shouldn't have a url_name attribute") kwargs
        (by simp [construct, getKwarg, ht, Bind.bind, Except.bind, PyVal.interp])
        (by (repeat apply append_ne_empty_left); decide)
  | InvalidPointer =>
      obtain ⟨st, ht⟩ := h "tag" (by simp [requiredFields])
      obtain ⟨su, hu⟩ := h "url_name" (by simp [requiredFields])
      exact construct_ok_ne_empty_aux Kind.InvalidPointer fn
        ("The <" ++ st ++ "> tag with url_name '" ++ su ++
          "' looks like it is an invalid pointer tag") kwargs
        (by simp [construct, getKwarg, ht, hu, Bind.bind, Except.bind, PyVal.interp])
        (by (repeat apply append_ne_empty_left); decide)
  | FileDoesNotExist =>
      obtain ⟨st, ht⟩ := h "tag" (by simp [requiredFields])
      obtain ⟨su, hu⟩ := h "url_name" (by simp [requiredFields])
      obtain ⟨sn, hn⟩ := h "new_file" (by simp [requiredFields])
      exact construct_ok_ne_empty_aux Kind.FileDoesNotExist fn
        ("The <" ++ st ++ "> tag with url_name " ++ su ++ " points to the file " ++
          sn ++ " that does not exist") kwargs
        (by simp [construct, getKwarg, ht, hu, hn, Bind.bind, Except.bind, PyVal.interp])
        (by (repeat apply append_ne_empty_left); decide)
  | SelfPointer =>
      obtain ⟨st, ht⟩ := h "tag" (by simp [requiredFields])
      obtain ⟨su, hu⟩ := h "url_name" (by simp [requiredFields])
      exact construct_ok_ne_empty_aux Kind.SelfPointer fn
        ("The tag <" ++ st ++ "> with url_name " ++ su ++
          " appears to be pointing to itself") kwargs
        (by simp [construct, getKwarg, ht, hu, Bind.bind, Except.bind, PyVal.interp])
        (by (repeat apply append_ne_empty_left); decide)
  | UnexpectedTag =>
      obtain ⟨st, ht⟩ := h "tag" (by simp [requiredFields])
      obtain ⟨sp, hp⟩ := h "parent" (by simp [requiredFields])
      obtain ⟨su, hu⟩ := h "url_name" (by simp [requiredFields])
      by_cases hse : su = ""
      · exact construct_ok_ne_empty_aux Kind.UnexpectedTag fn
          ("A <" ++ st ++ "> tag was unexpectedly found inside a <" ++ sp ++
            "> tag with no url_name") kwargs
          (by simp [construct, getKwarg, ht, hp, hu, hse, PyVal.truthy, Bind.bind,
            Except.bind, PyVal.interp])
          (by (repeat apply append_ne_empty_left); decide)
      · exact construct_ok_ne_empty_aux Kind.UnexpectedTag fn
          ("A <" ++ st ++ "> tag was unexpectedly found inside the <" ++ sp ++
            "> tag with url_name " ++ su) kwargs
          (by simp [construct, getKwarg, ht, hp, hu, hse, PyVal.truthy, Bind.bind,
            Except.bind, PyVal.interp])
          (by (repeat apply append_ne_empty_left); decide)
  | PossiblePointer =>
      obtain ⟨st, ht⟩ := h "tag" (by simp [requiredFields])
      obtain ⟨su, hu⟩ := h "url_name" (by simp [requiredFields])
      obtain ⟨sn, hn⟩ := h "new_file" (by simp [requiredFields])
      exact construct_ok_ne_empty_aux Kind.PossiblePointer fn
        ("The <" ++ st ++ "> tag with url_name '" ++ su ++
          "' is not a pointer, but a file that it could point to exists (" ++
          sn ++ ")") kwargs
        (by simp [construct, getKwarg, ht, hu, hn, Bind.bind, Except.bind, PyVal.interp])
        (by (repeat apply append_ne_empty_left); decide)
  | UnexpectedContent =>
      obtain ⟨st, ht⟩ := h "tag" (by simp [requiredFields])
      obtain ⟨su, hu⟩ := h "url_name" (by simp [requiredFields])
      obtain ⟨sx, hx⟩ := h "text" (by simp [requiredFields])
      by_cases hse : su = ""
      · exact construct_ok_ne_empty_aux Kind.UnexpectedContent fn
          (("A <" ++ st ++ "> tag with no url_name") ++
            " should not contain any text (" ++ pySlice10 (pyStrip sx) ++ "...)") kwargs
          (by simp [construct, getKwarg, ht, hu, hx, hse, PyVal.truthy, Bind.bind,
            Except.bind, PyVal.interp])
          (by (repeat apply append_ne_empty_left); decide)
      · exact construct_ok_ne_empty_aux Kind.UnexpectedContent fn
          (("The <" ++ st ++ "> tag with url_name '" ++ su ++ "'") ++
            " should not contain any text (" ++ pySlice10 (pyStrip sx) ++ "...)") kwargs
          (by simp [construct, getKwarg, ht, hu, hx, hse, PyVal.truthy, Bind.bind,
            Except.bind, PyVal.interp])
          (by (repeat apply append_ne_empty_left); decide)
  | NonFlatURLName =>
      obtain ⟨st, ht⟩ := h "tag" (by simp [requiredFields])
      obtain ⟨su, hu⟩ := h "url_name" (by simp [requiredFields])
      exact construct_ok_ne_empty_aux Kind.NonFlatURLName fn
        ("The <" ++ st ++ "> tag with url_name " ++ su ++
          " uses obsolete colon notation in the url_name to point to a subdirectory") kwargs
        (by simp [construct, getKwarg, ht, hu, Bind.bind, Except.bind, PyVal.interp])
        (by (repeat apply append_ne_empty_left); decide)
  | NonFlatFilename =>
      obtain ⟨su, hu⟩ := h "url_name" (by simp [requiredFields])
      by_cases hse : su = ""
      · exact construct_ok_ne_empty_aux Kind.NonFlatFilename fn
          ("An <html> tag with no url_name uses obsolete colon notation to point to a subdirectory for filename " ++
            fn) kwargs
          (by simp [construct, getKwarg, hu, hse, PyVal.truthy, Bind.bind,
            Except.bind, PyVal.interp])
          (by (repeat apply append_ne_empty_left); decide)
      · exact construct_ok_ne_empty_aux Kind.NonFlatFilename fn
          ("The <html> tag with url_name " ++ su ++
            " uses obsolete colon notation to point to a subdirectory for filename " ++
            fn) kwargs
          (by simp [construct, getKwarg, hu, hse, PyVal.truthy, Bind.bind,
            Except.bind, PyVal.interp])
          (by (repeat apply append_ne_empty_left); decide)

theorem construct_wellformed_total_witness :
    wellFormedKwargs Kind.EmptyTag
      [("tag", PyVal.pystr "chapter"), ("url_name", PyVal.pystr "intro")] ∧
    (∃ e, construct Kind.EmptyTag "f.xml"
        [("tag", PyVal.pystr "chapter"), ("url_name", PyVal.pystr "intro")] =
        Except.ok e ∧
      (e.description = "" →
        (Kind.EmptyTag = Kind.InvalidXML ∨ Kind.EmptyTag = Kind.InvalidHTML) ∧
        lookupKwarg [("tag", PyVal.pystr "chapter"), ("url_name", PyVal.pystr "intro")]
          "error" = some (PyVal.pystr ""))) := by
  have hwf : wellFormedKwargs Kind.EmptyTag
      [("tag", PyVal.pystr "chapter"), ("url_name", PyVal.pystr "intro")] := by
    intro f hf
    simp only [requiredFields, List.mem_cons, List.not_mem_nil, or_false] at hf
    rcases hf with rfl | rfl
    · exact ⟨"chapter", rfl⟩
    · exact ⟨"intro", rfl⟩
  exact ⟨hwf, construct_wellformed_total Kind.EmptyTag "f.xml" _ hwf⟩

/-- C6: constructing a diagnostic of kind K while one of K's required
keyword arguments is absent fails at construction time with an error
(`KeyError` in the source) rather than producing a diagnostic. -/
theorem construct_missing_field_fails (k : Kind) (fn : String) (kwargs : Kwargs)
    (f : String) (hf : f ∈ requiredFields k)
    (hmiss : lookupKwarg kwargs f = none) :
    ∃ m, construct k fn kwargs = Except.error m := by
  cases k with
  | CourseXMLDoesNotExist => simp [requiredFields] at hf
  | InvalidXML =>
      simp only [requiredFields, List.mem_cons, List.not_mem_nil, or_false] at hf
      subst hf
      simp only [construct]
      exact errBindLeft _ _ (getKwarg_missing hmiss)
  | InvalidHTML =>
      simp only [requiredFields, List.mem_cons, List.not_mem_nil, or_false] at hf
      subst hf
      simp only [construct]
      exact errBindLeft _ _ (getKwarg_missing hmiss)
  | CourseXMLName => simp [requiredFields] at hf
  | TagMismatch =>
      simp only [requiredFields, List.mem_cons, List.not_mem_nil, or_false] at hf
      simp only [construct]
      rcases hf with rfl | rfl
      · exact errBindLeft _ _ (getKwarg_missing hmiss)
      · apply errBind
        intro a
        exact errBindLeft _ _ (getKwarg_missing hmiss)
  | EmptyTag =>
      simp only [requiredFields, List.mem_cons, List.not_mem_nil, or_false] at hf
      simp only [construct]
      rcases hf with rfl | rfl
      · apply errBind
        intro u
        split <;> exact errBindLeft _ _ (getKwarg_missing hmiss)
      · exact errBindLeft _ _ (getKwarg_missing hmiss)
  | ExtraURLName =>
      simp only [requiredFields, List.mem_cons, List.not_mem_nil, or_false] at hf
      subst hf
      simp only [construct]
      exact errBindLeft _ _ (getKwarg_missing hmiss)
  | InvalidPointer =>
      simp only [requiredFields, List.mem_cons, List.not_mem_nil, or_false] at hf
      simp only [construct]
      rcases hf with rfl | rfl
      · exact errBindLeft _ _ (getKwarg_missing hmiss)
      · apply errBind
        intro a
        exact errBindLeft _ _ (getKwarg_missing hmiss)
  | FileDoesNotExist =>
      simp only [requiredFields, List.mem_cons, List.not_mem_nil, or_false] at hf
      simp only [construct]
      rcases hf with rfl | rfl | rfl
      · exact errBindLeft _ _ (getKwarg_missing hmiss)
      · apply errBind
        intro a
        exact errBindLeft _ _ (getKwarg_missing hmiss)
      · apply errBind
        intro a
        apply errBind
        intro b
        exact errBindLeft _ _ (getKwarg_missing hmiss)
  | SelfPointer =>
      simp only [requiredFields, List.mem_cons, List.not_mem_nil, or_false] at hf
      simp only [construct]
      rcases hf with rfl | rfl
      · exact errBindLeft _ _ (getKwarg_missing hmiss)
      · apply errBind
        intro a
        exact errBindLeft _ _ (getKwarg_missing hmiss)
  | UnexpectedTag =>
      simp only [requiredFields, List.mem_cons, List.not_mem_nil, or_false] at hf
      simp only [construct]
      rcases hf with rfl | rfl | rfl
      · apply errBind
        intro u
        split <;> exact errBindLeft _ _ (getKwarg_missing hmiss)
      · apply errBind
        intro u
        split <;> (apply errBind; intro a; exact errBindLeft _ _ (getKwarg_missing hmiss))
      · exact errBindLeft _ _ (getKwarg_missing hmiss)
  | PossiblePointer =>
      simp only [requiredFields, List.mem_cons, List.not_mem_nil, or_false] at hf
      simp only [construct]
      rcases hf with rfl | rfl | rfl
      · exact errBindLeft _ _ (getKwarg_missing hmiss)
      · apply errBind
        intro a
        exact errBindLeft _ _ (getKwarg_missing hmiss)
      · apply errBind
        intro a
        apply errBind
        intro b
        exact errBindLeft _ _ (getKwarg_missing hmiss)
  | UnexpectedContent =>
      simp only [requiredFields, List.mem_cons, List.not_mem_nil, or_false] at hf
      simp only [construct]
      rcases hf with rfl | rfl | rfl
      · apply errBind
        intro u
        exact errBindLeft _ _ (getKwarg_missing hmiss)
      · exact errBindLeft _ _ (getKwarg_missing hmiss)
      · apply errBind
        intro u
        apply errBind
        intro t
        exact errBindLeft _ _ (getKwarg_missing hmiss)
  | NonFlatURLName =>
      simp only [requiredFields, List.mem_cons, List.not_mem_nil, or_false] at hf
      simp only [construct]
      rcases hf with rfl | rfl
      · exact errBindLeft _ _ (getKwarg_missing hmiss)
      · apply errBind
        intro a
        exact errBindLeft _ _ (getKwarg_missing hmiss)
  | NonFlatFilename =>
      simp only [requiredFields, List.mem_cons, List.not_mem_nil, or_false] at hf
      subst hf
      simp only [construct]
      exact errBindLeft _ _ (getKwarg_missing hmiss)

theorem construct_missing_field_fails_witness :
    ("error" : String) ∈ requiredFields Kind.InvalidXML ∧
    lookupKwarg [] "error" = none ∧
    ∃ m, construct Kind.InvalidXML "course.xml" [] = Except.error m :=
  ⟨by decide, rfl,
    construct_missing_field_fails Kind.InvalidXML "course.xml" [] "error"
      (by decide) rfl⟩

/-- C10: exactly five kinds carry severity WARNING (CourseXMLName, EmptyTag,
PossiblePointer, NonFlatURLName, NonFlatFilename), the other ten carry
severity ERROR, and every constructed diagnostic carries its kind's fixed
severity. -/
theorem severity_catalog :
    (∀ k : Kind, k.classLevel = ErrorLevel.WARNING ↔
      k ∈ [Kind.CourseXMLName, Kind.EmptyTag, Kind.PossiblePointer,
           Kind.NonFlatURLName, Kind.NonFlatFilename]) ∧
    (∀ (k : Kind) (fn : String) (kwargs : Kwargs) (e : CourseError),
      construct k fn kwargs = Except.ok e →
        e.level = k.classLevel ∧ e.kind = k) := by
  constructor
  · decide
  · intro k fn kwargs e hok
    cases k with
    | CourseXMLDoesNotExist =>
        simp only [construct] at hok
        exact level_kind_of_ok hok
    | InvalidXML =>
        simp only [construct] at hok
        obtain ⟨a, ha, hok⟩ := exceptBindOk hok
        exact level_kind_of_ok hok
    | InvalidHTML =>
        simp only [construct] at hok
        obtain ⟨a, ha, hok⟩ := exceptBindOk hok
        exact level_kind_of_ok hok
    | CourseXMLName =>
        simp only [construct] at hok
        exact level_kind_of_ok hok
    | TagMismatch =>
        simp only [construct] at hok
        obtain ⟨a, ha, hok⟩ := exceptBindOk hok
        obtain ⟨b, hb, hok⟩ := exceptBindOk hok
        exact level_kind_of_ok hok
    | EmptyTag =>
        simp only [construct] at hok
        obtain ⟨u, hu, hok⟩ := exceptBindOk hok
        split at hok <;>
          (obtain ⟨t, ht, hok⟩ := exceptBindOk hok
           exact level_kind_of_ok hok)
    | ExtraURLName =>
        simp only [construct] at hok
        obtain ⟨a, ha, hok⟩ := exceptBindOk hok
        exact level_kind_of_ok hok
    | InvalidPointer =>
        simp only [construct] at hok
        obtain ⟨a, ha, hok⟩ := exceptBindOk hok
        obtain ⟨b, hb, hok⟩ := exceptBindOk hok
        exact level_kind_of_ok hok
    | FileDoesNotExist =>
        simp only [construct] at hok
        obtain ⟨a, ha, hok⟩ := exceptBindOk hok
        obtain ⟨b, hb, hok⟩ := exceptBindOk hok
        obtain ⟨c, hc, hok⟩ := exceptBindOk hok
        exact level_kind_of_ok hok
    | SelfPointer =>
        simp only [construct] at hok
        obtain ⟨a, ha, hok⟩ := exceptBindOk hok
        obtain ⟨b, hb, hok⟩ := exceptBindOk hok
        exact level_kind_of_ok hok
    | UnexpectedTag =>
        simp only [construct] at hok
        obtain ⟨u, hu, hok⟩ := exceptBindOk hok
        split at hok <;>
          (obtain ⟨a, ha, hok⟩ := exceptBindOk hok
           obtain ⟨b, hb, hok⟩ := exceptBindOk hok
           exact level_kind_of_ok hok)
    | PossiblePointer =>
        simp only [construct] at hok
        obtain ⟨a, ha, hok⟩ := exceptBindOk hok
        obtain ⟨b, hb, hok⟩ := exceptBindOk hok
        obtain ⟨c, hc, hok⟩ := exceptBindOk hok
        exact level_kind_of_ok hok
    | UnexpectedContent =>
        simp only [construct] at hok
        obtain ⟨u, hu, hok⟩ := exceptBindOk hok
        obtain ⟨t, ht, hok⟩ := exceptBindOk hok
        obtain ⟨tx, htx, hok⟩ := exceptBindOk hok
        cases tx with
        | pynone => simp at hok
        | pystr s => exact level_kind_of_ok hok
    | NonFlatURLName =>
        simp only [construct] at hok
        obtain ⟨a, ha, hok⟩ := exceptBindOk hok
        obtain ⟨b, hb, hok⟩ := exceptBindOk hok
        exact level_kind_of_ok hok
    | NonFlatFilename =>
        simp only [construct] at hok
        obtain ⟨u, hu, hok⟩ := exceptBindOk hok
        split at hok <;> exact level_kind_of_ok hok

theorem severity_catalog_witness :
    construct Kind.EmptyTag "f.xml"
      [("tag", PyVal.pystr "chapter"), ("url_name", PyVal.pystr "intro")] =
      Except.ok (mkCourseError Kind.EmptyTag "f.xml"
        "The <chapter> tag with url_name 'intro' is unexpectedly empty") ∧
    ((mkCourseError Kind.EmptyTag "f.xml"
        "The <chapter> tag with url_name 'intro' is unexpectedly empty").level =
      Kind.EmptyTag.classLevel ∧
     (mkCourseError Kind.EmptyTag "f.xml"
        "The <chapter> tag with url_name 'intro' is unexpectedly empty").kind =
      Kind.EmptyTag) :=
  ⟨rfl, severity_catalog.2 Kind.EmptyTag "f.xml"
    [("tag", PyVal.pystr "chapter"), ("url_name", PyVal.pystr "intro")]
    (mkCourseError Kind.EmptyTag "f.xml"
      "The <chapter> tag with url_name 'intro' is unexpectedly empty") rfl⟩

end EdxXmlClean
